import Mathlib

/-!
Shallow embedding of `src/Hardware-Info.py` (`hardware_info.py`), a one-shot
hardware report generator.

Pure string and formatting helpers of the script (`fmt_bytes`, `esc`,
`make_table`, `make_kv_table`, `progress_bar`, `make_card`, `make_sub`,
`runCmd`'s outcome classification) are translated directly.  Every
interaction with the outside world — the optional libraries psutil,
py-cpuinfo and GPUtil, spawned external tools, and `json.loads` decoding of
tool output — is modelled by an explicit environment `Env` whose fields
record the outcome each external probe would produce during the run.
Machine floats are modelled as rationals; Python's fixed-point formatting
`f"{x:.Nf}"` is reproduced by `pyFmt` (round-half-even on exact rationals),
and `str(float)` by `pyStrRat` (shortest decimal form for decimal-exact
values).
-/

/-- Python `"".join(parts)` over the collectors' accumulated part lists
(the script appends snippets to a `parts` list and joins them). -/
def joinParts : List String → String
  | [] => ""
  | p :: ps => p ++ joinParts ps

/-- The ASCII whitespace characters recognised by Python's `str.strip()`. -/
def isPySpace (c : Char) : Bool :=
  c == ' ' || c == '\t' || c == '\n' || c == '\r' || c == '\x0b' || c == '\x0c'

/-- Python `str.strip()`: drop leading and trailing whitespace. -/
def pyStrip (s : String) : String :=
  String.mk (((s.data.dropWhile isPySpace).reverse.dropWhile isPySpace).reverse)

/-- Split a character list at every occurrence of the separator, keeping
empty segments (the behaviour of Python `str.split(sep)`). -/
def splitOnChar (c : Char) : List Char → List (List Char)
  | [] => [[]]
  | x :: xs =>
      let r := splitOnChar c xs
      if x = c then [] :: r
      else
        match r with
        | h :: t => (x :: h) :: t
        | [] => [[x]]

/-- Python `str.splitlines()` for newline-normalised text (the script only
applies it to `runCmd` output, which `subprocess` returns with universal
newlines): split on `\n`, with no trailing empty item. -/
def pySplitlines (s : String) : List String :=
  if s.data.isEmpty then []
  else
    let l := (splitOnChar '\n' s.data).map String.mk
    if s.data.getLast? = some '\n' then l.dropLast else l

/-- Python `s[:n]` character slicing. -/
def pyTake (s : String) (n : ℕ) : String :=
  String.mk (s.data.take n)

/-- Occurrence test on character lists, used for Python's `sub in s`. -/
def subOccurs (pat : List Char) : List Char → Bool
  | [] => pat.isEmpty
  | c :: cs => pat.isPrefixOf (c :: cs) || subOccurs pat cs

/-- Python `pat in s` substring membership. -/
def pyIn (pat s : String) : Bool :=
  subOccurs pat.data s.data

/-- Python `s.split(":", 1)[1]`: everything after the first colon (the
script only calls this on lines known to contain a colon). -/
def afterFirstColon (s : String) : String :=
  String.mk ((s.data.dropWhile (fun c => !(c == ':'))).drop 1)

/-- Python dict assignment `d[k] = v` on an insertion-ordered association
list: overwrite in place, or append a new entry. -/
def setKV (k v : String) : List (String × String) → List (String × String)
  | [] => [(k, v)]
  | (k', v') :: rest => if k' = k then (k, v) :: rest else (k', v') :: setKV k v rest

/-- Python `d.get(k)` on an association list. -/
def getKV (l : List (String × String)) (k : String) : Option String :=
  (l.find? (fun p => p.1 == k)).map (·.2)

/-- Python `d.get(k, dflt)` on an association list. -/
def getKVD (l : List (String × String)) (k dflt : String) : String :=
  (getKV l k).getD dflt

/-- One step of `status_counts[s] = status_counts.get(s, 0) + 1`. -/
def bumpCount (k : String) : List (String × Nat) → List (String × Nat)
  | [] => [(k, 1)]
  | (k', n) :: rest => if k' = k then (k', n + 1) :: rest else (k', n) :: bumpCount k rest

/-- The insertion-ordered histogram a Python dict builds by counting. -/
def statusCounts (l : List String) : List (String × Nat) :=
  l.foldl (fun acc s => bumpCount s acc) []

/-- Stable insertion into an ascending list (equal keys keep first-come
order), mirroring Python's stable `sorted`. -/
def insertLe {α : Type} (le : α → α → Bool) (x : α) : List α → List α
  | [] => [x]
  | y :: ys => if le y x then y :: insertLe le x ys else x :: y :: ys

/-- Python `sorted(l)` (stable, ascending by `le`). -/
def pySorted {α : Type} (le : α → α → Bool) (l : List α) : List α :=
  l.foldl (fun acc x => insertLe le x acc) []

/-- Python `s or dflt` for strings: the empty string is falsy. -/
def pyOrStr (s dflt : String) : String :=
  if s = "" then dflt else s

/-- Python `x or dflt` for an optional string field: `None` and `""` are
falsy. -/
def pyOrOpt (o : Option String) (dflt : String) : String :=
  match o with
  | some s => if s = "" then dflt else s
  | none => dflt

/-- Left-pad a digit string with zeros to the requested width. -/
def zpad (n : Nat) (s : String) : String :=
  String.mk (List.replicate (n - s.length) '0') ++ s

/-- Round half to even of the fraction `n / d` (with `d > 0`): the
rounding of Python's fixed-point float formatting, exact on
decimal-representable inputs.  Stated on the integer numerator and
denominator so that it evaluates by integer arithmetic alone. -/
def rhe (n d : ℤ) : ℤ :=
  let f := Int.fdiv n d
  let r2 := 2 * (n - f * d)
  if r2 < d then f
  else if d < r2 then f + 1
  else if f % 2 = 0 then f else f + 1

/-- Python `f"{q:.precf}"` fixed-point formatting on rationals, including
the negative-zero sign Python keeps for negative values rounding to 0.
The value scaled by `10^prec` is the fraction `q.num * 10^prec / q.den`. -/
def pyFmt (prec : Nat) (q : ℚ) : String :=
  let n : ℤ := rhe (q.num * (10 : ℤ) ^ prec) (q.den : ℤ)
  let sign := if n < 0 ∨ (n = 0 ∧ q.num < 0) then "-" else ""
  let mag := n.natAbs
  if prec = 0 then sign ++ toString mag
  else sign ++ toString (mag / 10 ^ prec) ++ "." ++ zpad prec (toString (mag % 10 ^ prec))

/-- Python `str(x)` for a float modelled as a rational: shortest decimal
expansion with at least one fractional digit, for decimal-exact values
(the only ones the embedding ever prints this way).  `q * 10^(k+1)` is
integral exactly when the reduced denominator divides `10^(k+1)`. -/
def pyStrRat (q : ℚ) : String :=
  match (List.range 60).find? (fun k => decide (q.den ∣ 10 ^ (k + 1))) with
  | some k => pyFmt (k + 1) q
  | none => pyFmt 17 q

/-- Outcome of one `subprocess.run` call in `runCmd`: the process
completed with an exit code and captured stdout, or raised one of the
caught exception classes (`FileNotFoundError`, `subprocess.TimeoutExpired`,
`OSError`). -/
inductive CmdOutcome where
  | completed (exitCode : ℤ) (stdout : String)
  | notFound
  | timedOut
  | osError
deriving DecidableEq

/-- `runCmd`: return the stripped stdout on exit code 0, `None` on a
non-zero exit code or any caught exception. -/
def runCmd (o : CmdOutcome) : Option String :=
  match o with
  | .completed code out => if code = 0 then some (pyStrip out) else none
  | _ => none

/-- The `output = runCmd(...); if output:` pattern: the probe text when
`runCmd` returned a truthy (non-`None`, non-empty) string. -/
def cmdText (o : CmdOutcome) : Option String :=
  match runCmd o with
  | some s => if s = "" then none else some s
  | none => none

/-- One character of `html.escape` (quote=True).  `html.escape` applies
`str.replace` for `&` first and then for the other four characters, which
is equivalent to this character-wise map. -/
def escChar (c : Char) : List Char :=
  if c = '&' then "&amp;".data
  else if c = '<' then "&lt;".data
  else if c = '>' then "&gt;".data
  else if c = '"' then "&quot;".data
  else if c = '\'' then "&#x27;".data
  else [c]

/-- `esc`: HTML-escape a string via `html.escape`. -/
def esc (s : String) : String :=
  String.mk (s.data.flatMap escChar)

/-- `make_table`: an HTML table; the header row is emitted only when the
`headers` argument is truthy (not `None` and not the empty list). -/
def make_table (rows : List (List String)) (headers : Option (List String)) : String :=
  "<table>\n"
  ++ (match headers with
      | some hs =>
          if hs.isEmpty then ""
          else
            "<thead><tr>"
            ++ joinParts (hs.map (fun hdr => "<th>" ++ esc hdr ++ "</th>"))
            ++ "</tr></thead>\n"
      | none => "")
  ++ "<tbody>\n"
  ++ joinParts (rows.map (fun row =>
       "<tr>"
       ++ joinParts (row.map (fun cell => "<td>" ++ esc cell ++ "</td>"))
       ++ "</tr>\n"))
  ++ "</tbody></table>\n"

/-- Key/value cell pair of one `make_kv_table` row, with the script's
length guards `row[0] if len(row) > 0` / `row[1] if len(row) > 1`. -/
def kvCell (row : List String) : String × String :=
  match row with
  | [] => ("", "")
  | [k] => (esc k, "")
  | k :: v :: _ => (esc k, esc v)

/-- `make_kv_table`: two-column key/value table without a header. -/
def make_kv_table (rows : List (List String)) : String :=
  "<table class=\"kv\"><tbody>\n"
  ++ joinParts (rows.map (fun row =>
       "<tr><td class=\"kv-key\">" ++ (kvCell row).1
       ++ "</td><td class=\"kv-val\">" ++ (kvCell row).2 ++ "</td></tr>\n"))
  ++ "</tbody></table>\n"

/-- `progress_bar`: the fill width uses `max(0, min(100, percent))`, the
textual label interpolates the raw `percent`. -/
def progress_bar (percent : ℚ) (color : String) : String :=
  let clamped := max 0 (min 100 percent)
  "<div class=\"progress-bar\"><div class=\"progress-fill\" style=\"width:"
  ++ pyFmt 1 clamped ++ "%;background:" ++ color
  ++ ";\"></div><span class=\"progress-label\">" ++ pyFmt 1 percent
  ++ "%</span></div>"

/-- Modelled from the spec: a progress bar whose displayed value is clamped
to [0,100] before display everywhere, label included ("values are clamped
to [0,100] before display").  Used only to compare against the source's
`progress_bar`. -/
def progress_bar_clamped_label (percent : ℚ) (color : String) : String :=
  let clamped := max 0 (min 100 percent)
  "<div class=\"progress-bar\"><div class=\"progress-fill\" style=\"width:"
  ++ pyFmt 1 clamped ++ "%;background:" ++ color
  ++ ";\"></div><span class=\"progress-label\">" ++ pyFmt 1 clamped
  ++ "%</span></div>"

/-- `make_card`: wrap a collector's output in a card; the icon and body are
interpolated raw, the title is escaped, the id attribute only when truthy. -/
def make_card (title icon content card_id : String) : String :=
  let id_attr := if card_id ≠ "" then " id=\"" ++ card_id ++ "\"" else ""
  "<section class=\"card\"" ++ id_attr
  ++ "><div class=\"card-header\"><span class=\"card-icon\">" ++ icon
  ++ "</span><h2>" ++ esc title ++ "</h2></div><div class=\"card-body\">"
  ++ content ++ "</div></section>\n"

/-- `make_sub`: sub-section within a card. -/
def make_sub (title content : String) : String :=
  "<div class=\"sub-section\"><h3>" ++ esc title ++ "</h3>" ++ content ++ "</div>\n"

/-- `fmt_bytes` loop: try each unit, dividing by 1024 until the value is
small enough. -/
def fmtBytesAux : List String → ℚ → String → String
  | [], n, suffix => pyFmt 2 n ++ " E" ++ suffix
  | u :: us, n, suffix =>
      if abs n < 1024 then pyFmt 2 n ++ " " ++ u ++ suffix
      else fmtBytesAux us (n / 1024) suffix

/-- `fmt_bytes`: human-readable byte count. -/
def fmt_bytes (n : ℚ) (suffix : String) : String :=
  fmtBytesAux ["", "K", "M", "G", "T", "P"] n suffix

/-- `platform.system()` of the running host. -/
inductive OS where
  | linux
  | windows
  | darwin
  | other
deriving DecidableEq

/-- The dictionary returned by `cpuinfo.get_cpu_info()`; absent keys are
`none` (the script supplies defaults via `.get`). -/
structure CpuInfoData where
  brand : Option String
  vendor : Option String
  family : Option ℤ
  modelNum : Option ℤ
  stepping : Option ℤ
  archStringRaw : Option String
  arch : Option String
  hzAdvertised : Option String
  hzActual : Option String
  l2 : Option String
  l3 : Option String
  flags : List String
deriving DecidableEq

/-- `psutil.cpu_freq()` result (`None` is modelled at the use site). -/
structure FreqData where
  current : ℚ
  fmin : ℚ
  fmax : ℚ
deriving DecidableEq

/-- One entry of `psutil.sensors_temperatures()`; `current`/`high`/
`critical` can be `None`. -/
structure TempEntry where
  label : String
  current : Option ℚ
  high : Option ℚ
  critical : Option ℚ
deriving DecidableEq

/-- One record of the Windows thermal-zone JSON (fields may be missing). -/
structure WinTempEntry where
  instanceName : Option String
  currentTemperature : Option ℚ
deriving DecidableEq

/-- `psutil.virtual_memory()`; `cached`/`buffers` are platform-dependent
attributes read through `getattr(vm, ..., 0)`. -/
structure VmData where
  total : ℤ
  available : ℤ
  used : ℤ
  percent : ℚ
  cached : Option ℤ
  buffers : Option ℤ
deriving DecidableEq

/-- `psutil.swap_memory()`. -/
structure SwapData where
  total : ℤ
  used : ℤ
  percent : ℚ
deriving DecidableEq

/-- One record of the `Win32_PhysicalMemory` JSON. -/
structure WinMemRec where
  bankLabel : Option String
  capacity : Option ℤ
  smbiosType : Option ℤ
  speed : Option ℤ
  manufacturer : Option String
  partNumber : Option String
deriving DecidableEq

/-- One GPU object returned by `GPUtil.getGPUs()`. -/
structure GpuRec where
  gid : ℤ
  name : String
  driver : String
  memoryTotal : ℚ
  memoryUsed : ℚ
  memoryFree : ℚ
  temperature : ℚ
  load : ℚ
  memoryUtil : ℚ
deriving DecidableEq

/-- One record of the `Win32_VideoController` JSON. -/
structure WinVideoRec where
  name : Option String
  videoProcessor : Option String
  driverVersion : Option String
  adapterRAM : Option ℤ
  currentRefreshRate : Option ℤ
  status : Option String
deriving DecidableEq

/-- One `psutil.disk_partitions()` entry. -/
structure PartRec where
  device : String
  mountpoint : String
  fstype : String
  opts : String
deriving DecidableEq

/-- `psutil.disk_usage(mountpoint)` result. -/
structure UsageRec where
  total : ℤ
  used : ℤ
  free : ℤ
  percent : ℚ
deriving DecidableEq

/-- One per-disk entry of `psutil.disk_io_counters(perdisk=True)`. -/
structure IoRec where
  readCount : ℤ
  writeCount : ℤ
  readBytes : ℤ
  writeBytes : ℤ
  readTime : ℤ
  writeTime : ℤ
deriving DecidableEq

/-- One block device of the `lsblk --json` output. -/
structure LsblkDev where
  name : Option String
  size : Option String
  devType : Option String
  rota : Option Bool
  vendor : Option String
  model : Option String
  serial : Option String
  tran : Option String
deriving DecidableEq

/-- One record of the `Win32_DiskDrive` JSON. -/
structure WinDiskRec where
  deviceId : Option String
  model : Option String
  size : Option ℤ
  mediaType : Option String
  interfaceType : Option String
  serialNumber : Option String
  partitions : Option ℤ
  status : Option String
deriving DecidableEq

/-- One address of a `psutil.net_if_addrs()` entry; `family` is the
`str(addr.family)` text before the script strips `AddressFamily.`. -/
structure AddrRec where
  family : String
  address : String
  netmask : Option String
  broadcast : Option String
deriving DecidableEq

/-- One `psutil.net_if_stats()` entry. -/
structure StatRec where
  isup : Bool
  speed : ℤ
  mtu : ℤ
  duplex : ℤ
deriving DecidableEq

/-- One `psutil.net_io_counters(pernic=True)` entry. -/
structure NetIoRec where
  bytesSent : ℤ
  bytesRecv : ℤ
  packetsSent : ℤ
  packetsRecv : ℤ
  errin : ℤ
  errout : ℤ
  dropin : ℤ
  dropout : ℤ
deriving DecidableEq

/-- Everything the script observes from the outside world during one run:
presence of the optional libraries, platform identity, the data each
library call would return, and the outcome of every external command.
Each `...Data : Option _` field paired with a command outcome models the
`json.loads` decoding of that command's stdout (`none` = `JSONDecodeError`);
Python's `json` module is an external collaborator of the script. -/
structure Env where
  os : OS
  psutilPresent : Bool
  cpuinfoPresent : Bool
  gputilPresent : Bool
  unameSystem : String
  unameRelease : String
  unameVersion : String
  unameMachine : String
  unameNode : String
  pythonVersion : String
  bootTimeStr : String
  processor : String
  cpuinfoData : CpuInfoData
  physCores : Option ℕ
  logCores : Option ℕ
  cpuFreq : Option FreqData
  overallCpu : ℚ
  perCpu : List ℚ
  hasSensorsTemps : Bool
  sensorsTemps : List (String × List TempEntry)
  sensorsCmdOut : CmdOutcome
  winTempOut : CmdOutcome
  winTempData : Option (List WinTempEntry)
  vm : VmData
  swap : SwapData
  sudoDmidecodeOut : CmdOutcome
  dmidecodeOut : CmdOutcome
  winMemOut : CmdOutcome
  winMemData : Option (List WinMemRec)
  macMemOut : CmdOutcome
  gputilGpus : Option (List GpuRec)
  nvidiaSmiOnPath : Bool
  nvidiaSmiOut : CmdOutcome
  rocmOnPath : Bool
  rocmOut : CmdOutcome
  lspciOut : CmdOutcome
  winVideoOut : CmdOutcome
  winVideoData : Option (List WinVideoRec)
  macDisplayOut : CmdOutcome
  partitions : List PartRec
  diskUsage : String → Option UsageRec
  ioCounters : Option (List (String × IoRec))
  lsblkOut : CmdOutcome
  lsblkData : Option (List LsblkDev)
  smartctlOnPath : Bool
  sudoSmartOut : String → CmdOutcome
  smartOut : String → CmdOutcome
  winDiskOut : CmdOutcome
  winDiskData : Option (List WinDiskRec)
  macStorageOut : CmdOutcome
  hostname : String
  fqdn : Option String
  defaultIp : Option String
  netAddrs : List (String × List AddrRec)
  netStats : List (String × StatRec)
  netIo : List (String × NetIoRec)
  connections : Except Unit (List String)

/-- Association-list lookup modelling `dict.get` for the psutil per-nic
dictionaries. -/
def getAssoc {α : Type} (l : List (String × α)) (k : String) : Option α :=
  (l.find? (fun p => p.1 == k)).map (·.2)

/-- `collect_system_summary`: uname/platform rows plus the boot time when
psutil is importable. -/
def collect_system_summary (e : Env) : String :=
  make_kv_table (
    [["Operating System", e.unameSystem ++ " " ++ e.unameRelease],
     ["OS Version", e.unameVersion],
     ["Machine Architecture", e.unameMachine],
     ["Node Name", e.unameNode],
     ["Python Version", e.pythonVersion]]
    ++ (if e.psutilPresent then [["Boot Time", e.bootTimeStr]] else []))

/-- Display of `info.get(key, '?')` for the integer cpuinfo fields. -/
def showIntOrQm (o : Option ℤ) : String :=
  match o with
  | some n => toString n
  | none => "?"

/-- Display of `str(psutil.cpu_count(...) or "N/A")`. -/
def showCountOr (o : Option ℕ) : String :=
  match o with
  | some n => if n = 0 then "N/A" else toString n
  | none => "N/A"

/-- The Specifications rows of `collect_cpu_info`. -/
def cpuSpecRows (e : Env) : List (List String) :=
  [["Processor", pyOrStr e.processor "N/A"],
   ["Architecture", e.unameMachine]]
  ++ (if e.cpuinfoPresent then
        [["Brand", e.cpuinfoData.brand.getD "N/A"],
         ["Vendor", e.cpuinfoData.vendor.getD "N/A"],
         ["Family / Model / Stepping",
          showIntOrQm e.cpuinfoData.family ++ " / " ++ showIntOrQm e.cpuinfoData.modelNum
            ++ " / " ++ showIntOrQm e.cpuinfoData.stepping],
         ["Arch (detailed)", e.cpuinfoData.archStringRaw.getD (e.cpuinfoData.arch.getD "N/A")],
         ["Base Frequency", e.cpuinfoData.hzAdvertised.getD "N/A"],
         ["Current Frequency", e.cpuinfoData.hzActual.getD "N/A"]]
        ++ (let l2 := e.cpuinfoData.l2.getD "N/A"
            if l2 ≠ "N/A" then [["L2 Cache", l2]] else [])
        ++ (let l3 := e.cpuinfoData.l3.getD "N/A"
            if l3 ≠ "N/A" then [["L3 Cache", l3]] else [])
        ++ (let notable := ["sse4_2", "avx", "avx2", "avx512f", "aes", "fma3", "fma4"].filter
              (fun f => e.cpuinfoData.flags.contains f)
            if notable ≠ [] then [["Notable Extensions", String.intercalate ", " notable]] else [])
      else [["[py-cpuinfo]", "Not installed — install for detailed CPU info"]])
  ++ (if e.psutilPresent then
        [["Physical Cores", showCountOr e.physCores],
         ["Logical Cores", showCountOr e.logCores]]
        ++ (match e.cpuFreq with
            | some f =>
                [["Freq (current)", pyFmt 2 f.current ++ " MHz"]]
                ++ (if f.fmin ≠ 0 then [["Freq (min)", pyFmt 2 f.fmin ++ " MHz"]] else [])
                ++ (if f.fmax ≠ 0 then [["Freq (max)", pyFmt 2 f.fmax ++ " MHz"]] else [])
            | none => [])
      else [])

/-- The Usage sub-section of `collect_cpu_info` (present only with psutil). -/
def cpuUsagePart (e : Env) : List String :=
  if e.psutilPresent then
    [make_sub "Usage" (
      "<div class=\"metric-row\"><span class=\"metric-label\">Overall CPU Usage</span>"
      ++ progress_bar e.overallCpu "var(--accent)" ++ "</div>"
      ++ joinParts (e.perCpu.enum.map (fun iu =>
           let color := if iu.2 < 50 then "var(--green)"
                        else if iu.2 < 80 then "var(--yellow)" else "var(--red)"
           "<div class=\"metric-row\"><span class=\"metric-label\">Core "
           ++ toString iu.1 ++ "</span>" ++ progress_bar iu.2 color ++ "</div>")))]
  else []

/-- Display of `f"{entry.current:.1f}°C" if entry.current else "N/A"`. -/
def optTempFmt (o : Option ℚ) : String :=
  match o with
  | some q => if q ≠ 0 then pyFmt 1 q ++ "°C" else "N/A"
  | none => "N/A"

/-- The psutil `sensors_temperatures()` attempt of the temperature chain. -/
def cpuTempPsutil (e : Env) : Option String :=
  if e.psutilPresent ∧ e.hasSensorsTemps then
    if e.sensorsTemps ≠ [] then
      let temp_rows := (e.sensorsTemps.map (fun ce =>
        ce.2.map (fun entry =>
          [ce.1 ++ ": " ++ pyOrStr entry.label "N/A",
           optTempFmt entry.current, optTempFmt entry.high, optTempFmt entry.critical]))).flatten
      if temp_rows ≠ [] then
        some (make_table temp_rows (some ["Sensor", "Current", "High", "Critical"]))
      else none
    else none
  else none

/-- One row of the Windows thermal-zone table: tenth-kelvin reading
converted to Celsius. -/
def winTempRow (entry : WinTempEntry) : List String :=
  let kelvin_tenths : ℚ := entry.currentTemperature.getD 0
  let celsius := kelvin_tenths / 10 - 273.15
  [entry.instanceName.getD "Unknown", pyFmt 1 celsius ++ "°C"]

/-- The Temperature sub-section body of `collect_cpu_info`: psutil sensors,
then `sensors` on Linux, then the PowerShell thermal zone on Windows, then
the static guidance note. -/
def cpuTempHtml (e : Env) : String :=
  match cpuTempPsutil e with
  | some h => h
  | none =>
      let viaLinux : Option String :=
        if e.os = OS.linux then
          match cmdText e.sensorsCmdOut with
          | some out => some ("<pre>" ++ esc out ++ "</pre>")
          | none => none
        else none
      match viaLinux with
      | some h => h
      | none =>
          let viaWin : Option String :=
            if e.os = OS.windows then
              match cmdText e.winTempOut with
              | some _ =>
                  match e.winTempData with
                  | some data => some (make_kv_table (data.map winTempRow))
                  | none => none
              | none => none
            else none
          match viaWin with
          | some h => h
          | none =>
              "<p class=\"note\">Temperature data not available (install lm-sensors on Linux, or run as admin on Windows)</p>"

/-- `collect_cpu_info`: Specifications, then Usage (psutil only), then
Temperature. -/
def collect_cpu_info (e : Env) : String :=
  joinParts (make_sub "Specifications" (make_kv_table (cpuSpecRows e))
             :: (cpuUsagePart e ++ [make_sub "Temperature" (cpuTempHtml e)]))

/-- The Usage part of `collect_memory_info` (RAM/swap bars and table), or
the psutil guidance note. -/
def memUsagePart (e : Env) : List String :=
  if e.psutilPresent then
    let vm := e.vm
    let color := if vm.percent < 60 then "var(--green)"
                 else if vm.percent < 85 then "var(--yellow)" else "var(--red)"
    let usage :=
      "<div class=\"metric-row\"><span class=\"metric-label\">RAM ("
      ++ fmt_bytes (vm.used : ℚ) "B" ++ " / " ++ fmt_bytes (vm.total : ℚ) "B"
      ++ ")</span>" ++ progress_bar vm.percent color ++ "</div>"
      ++ make_kv_table
          [["Total RAM", fmt_bytes (vm.total : ℚ) "B"],
           ["Available", fmt_bytes (vm.available : ℚ) "B"],
           ["Used", fmt_bytes (vm.used : ℚ) "B"],
           ["Cached", fmt_bytes ((vm.cached.getD 0 : ℤ) : ℚ) "B"],
           ["Buffers", fmt_bytes ((vm.buffers.getD 0 : ℤ) : ℚ) "B"]]
      ++ (if e.swap.total > 0 then
            let swap_color := if e.swap.percent < 50 then "var(--green)"
                              else if e.swap.percent < 80 then "var(--yellow)" else "var(--red)"
            "<div class=\"metric-row\" style=\"margin-top:0.8rem;\"><span class=\"metric-label\">Swap ("
            ++ fmt_bytes (e.swap.used : ℚ) "B" ++ " / " ++ fmt_bytes (e.swap.total : ℚ) "B"
            ++ ")</span>" ++ progress_bar e.swap.percent swap_color ++ "</div>"
          else "")
    [make_sub "Usage" usage]
  else ["<p class=\"note\">psutil not installed — install for memory usage info</p>"]

/-- The keys the dmidecode parser extracts per memory device. -/
def dmiKeys : List String :=
  ["Size", "Type", "Speed", "Configured Memory Speed",
   "Manufacturer", "Part Number", "Locator", "Form Factor"]

/-- The flush guard `current_device.get("Size") and "No Module" not in
current_device.get("Size", "")`. -/
def dmiFlushCond (d : List (String × String)) : Bool :=
  match getKV d "Size" with
  | some sz => !(sz == "") && !(pyIn "No Module" sz)
  | none => false

/-- One line of the dmidecode parse loop: strip, flush/reset on a
`Memory Device` header, then record any `key:` line. -/
def dmiProcessLine (st : List (String × String) × List (List (String × String)))
    (rawLine : String) : List (String × String) × List (List (String × String)) :=
  let line := pyStrip rawLine
  let cur := st.1
  let devs := st.2
  let flushed :=
    if line.startsWith "Memory Device" then
      (([] : List (String × String)), if dmiFlushCond cur then devs ++ [cur] else devs)
    else (cur, devs)
  let cur' := dmiKeys.foldl
    (fun c key =>
      if line.startsWith (key ++ ":") then setKV key (pyStrip (afterFirstColon line)) c else c)
    flushed.1
  (cur', flushed.2)

/-- The populated memory devices parsed from a dmidecode dump, including
the final flush after the loop. -/
def dmiDevices (output : String) : List (List (String × String)) :=
  let st := (pySplitlines output).foldl dmiProcessLine ([], [])
  if dmiFlushCond st.1 then st.2 ++ [st.1] else st.2

/-- One module row of the Linux memory table. -/
def dmiRow (dev : List (String × String)) : List String :=
  [getKVD dev "Locator" "N/A", getKVD dev "Size" "N/A", getKVD dev "Type" "N/A",
   getKVD dev "Speed" "N/A", getKVD dev "Manufacturer" "N/A",
   pyStrip (getKVD dev "Part Number" "N/A")]

/-- The Linux module-details attempt: `sudo dmidecode -t memory`, falling
back to plain `dmidecode -t memory`, then the line parser. -/
def memModuleLinux (e : Env) : Option String :=
  let output :=
    match cmdText e.sudoDmidecodeOut with
    | some o => some o
    | none => cmdText e.dmidecodeOut
  match output with
  | some out =>
      let devices := dmiDevices out
      if devices ≠ [] then
        some (make_table (devices.map dmiRow)
          (some ["Slot", "Size", "Type", "Speed", "Manufacturer", "Part Number"]))
      else none
  | none => none

/-- The SMBIOS memory-type map of `collect_memory_info` with its `Type N`
fallback for unmapped codes. -/
def memTypeLabel (c : ℤ) : String :=
  if c = 20 then "DDR"
  else if c = 21 then "DDR2"
  else if c = 22 then "DDR2"
  else if c = 24 then "DDR3"
  else if c = 26 then "DDR4"
  else if c = 34 then "DDR5"
  else "Type " ++ toString c

/-- One module row of the Windows memory table. -/
def winMemRow (m : WinMemRec) : List String :=
  [m.bankLabel.getD "N/A",
   fmt_bytes ((m.capacity.getD 0 : ℤ) : ℚ) "B",
   memTypeLabel (m.smbiosType.getD 0),
   (match m.speed with | some s => toString s | none => "N/A") ++ " MT/s",
   m.manufacturer.getD "N/A",
   pyStrip (pyOrOpt m.partNumber "N/A")]

/-- The Windows module-details attempt (PowerShell + JSON decode). -/
def memModuleWin (e : Env) : Option String :=
  match cmdText e.winMemOut with
  | some _ =>
      match e.winMemData with
      | some data =>
          some (make_table (data.map winMemRow)
            (some ["Slot", "Size", "Type", "Speed", "Manufacturer", "Part Number"]))
      | none => none
  | none => none

/-- The Module Details sub-section of `collect_memory_info`: per-OS chain,
degrading to the static guidance note. -/
def memModulePart (e : Env) : String :=
  let found : Option String :=
    if e.os = OS.linux then memModuleLinux e
    else if e.os = OS.windows then memModuleWin e
    else if e.os = OS.darwin then
      match cmdText e.macMemOut with
      | some out => some ("<pre>" ++ esc out ++ "</pre>")
      | none => none
    else none
  make_sub "Module Details"
    (found.getD "<p class=\"note\">Module details not available (may require sudo on Linux, or admin on Windows)</p>")

/-- `collect_memory_info`: Usage then Module Details. -/
def collect_memory_info (e : Env) : String :=
  joinParts (memUsagePart e ++ [memModulePart e])

/-- The candidate data sources of `collect_gpu_info`, for the invocation
log. -/
inductive GpuAdapter where
  | gputil
  | nvidiaSmi
  | rocmSmi
  | lspci
  | winVideo
  | macProfiler
deriving DecidableEq

/-- Running state of `collect_gpu_info`: the accumulated `parts`, the log
of adapters actually invoked, and the `gpu_found` flag. -/
structure GpuSt where
  parts : List String
  inv : List GpuAdapter
  found : Bool
deriving DecidableEq

/-- The per-GPU block of the GPUtil branch. -/
def gputilGpuHtml (iu : ℕ × GpuRec) : String :=
  let g := iu.2
  let mem_pct := g.memoryUtil * 100
  let load_pct := g.load * 100
  let mem_color := if mem_pct < 60 then "var(--green)"
                   else if mem_pct < 85 then "var(--yellow)" else "var(--red)"
  let load_color := if load_pct < 60 then "var(--green)"
                    else if load_pct < 85 then "var(--yellow)" else "var(--red)"
  make_sub ("NVIDIA GPU " ++ toString iu.1 ++ ": " ++ g.name)
    ("<div class=\"metric-row\"><span class=\"metric-label\">GPU Load</span>"
     ++ progress_bar load_pct load_color ++ "</div>"
     ++ "<div class=\"metric-row\"><span class=\"metric-label\">VRAM ("
     ++ pyFmt 0 g.memoryUsed ++ " / " ++ pyFmt 0 g.memoryTotal ++ " MB)</span>"
     ++ progress_bar mem_pct mem_color ++ "</div>"
     ++ make_kv_table
         [["GPU ID", toString g.gid], ["Name", g.name], ["Driver", g.driver],
          ["Memory Total", pyFmt 0 g.memoryTotal ++ " MB"],
          ["Memory Used", pyFmt 0 g.memoryUsed ++ " MB"],
          ["Memory Free", pyFmt 0 g.memoryFree ++ " MB"],
          ["Temperature", pyStrRat g.temperature ++ "°C"]])

/-- GPUtil stage: invoked when the library imported; `getGPUs()` may raise
(`none`), and `gpu_found` is set only when the list is non-empty. -/
def stageGputil (e : Env) (st : GpuSt) : GpuSt :=
  if e.gputilPresent then
    let st := { st with inv := st.inv ++ [GpuAdapter.gputil] }
    match e.gputilGpus with
    | some gpus =>
        if gpus.isEmpty then st
        else { st with parts := st.parts ++ gpus.enum.map gputilGpuHtml, found := true }
    | none => st
  else st

/-- One CSV line of the `nvidia-smi --query-gpu` output: split on commas,
strip the fields, and render only lines with at least 15 fields. -/
def nvsmiLineParts (line : String) : List String :=
  let p := (splitOnChar ',' line.data).map (fun cs => pyStrip (String.mk cs))
  if p.length ≥ 15 then
    [make_sub ("NVIDIA GPU " ++ p.getD 0 "" ++ ": " ++ p.getD 1 "")
      (make_kv_table
        [["Index", p.getD 0 ""], ["Name", p.getD 1 ""], ["Driver", p.getD 2 ""],
         ["Temperature", p.getD 3 "" ++ "°C"],
         ["GPU Utilization", p.getD 4 "" ++ "%"],
         ["Memory Utilization", p.getD 5 "" ++ "%"],
         ["Memory Total", p.getD 6 "" ++ " MiB"],
         ["Memory Used", p.getD 7 "" ++ " MiB"],
         ["Memory Free", p.getD 8 "" ++ " MiB"],
         ["GPU Clock", p.getD 9 "" ++ " MHz"],
         ["Memory Clock", p.getD 10 "" ++ " MHz"],
         ["Max GPU Clock", p.getD 11 "" ++ " MHz"],
         ["Max Memory Clock", p.getD 12 "" ++ " MHz"],
         ["Power Draw", p.getD 13 "" ++ " W"],
         ["Power Limit", p.getD 14 "" ++ " W"]])]
  else []

/-- Direct `nvidia-smi` stage: gated on `not gpu_found` and the tool being
on PATH; `gpu_found` is set whenever the output is truthy. -/
def stageNvsmi (e : Env) (st : GpuSt) : GpuSt :=
  if ¬ st.found ∧ e.nvidiaSmiOnPath then
    let st := { st with inv := st.inv ++ [GpuAdapter.nvidiaSmi] }
    match cmdText e.nvidiaSmiOut with
    | some out =>
        { st with parts := st.parts ++ (pySplitlines out).flatMap nvsmiLineParts,
                  found := true }
    | none => st
  else st

/-- `rocm-smi` stage: gated only on the tool being on PATH — it runs even
when an NVIDIA source already succeeded. -/
def stageRocm (e : Env) (st : GpuSt) : GpuSt :=
  if e.rocmOnPath then
    let st := { st with inv := st.inv ++ [GpuAdapter.rocmSmi] }
    match cmdText e.rocmOut with
    | some out =>
        { st with
          parts := st.parts
            ++ [make_sub "AMD GPU (rocm-smi)" ("<pre>" ++ esc (pyTake out 4000) ++ "</pre>")],
          found := true }
    | none => st
  else st

/-- `lspci` display-adapter stage: gated only on the OS being Linux — it
runs even when a vendor source already succeeded. -/
def stageLspci (e : Env) (st : GpuSt) : GpuSt :=
  if e.os = OS.linux then
    let st := { st with inv := st.inv ++ [GpuAdapter.lspci] }
    match cmdText e.lspciOut with
    | some out =>
        let vga := (pySplitlines out).filter
          (fun l => pyIn "VGA" l || pyIn "3D" l || pyIn "Display" l)
        if vga.isEmpty then st
        else
          { st with
            parts := st.parts
              ++ [make_sub "Detected Display Adapters"
                   ("<div class=\"adapter-list\">"
                    ++ joinParts (vga.map (fun l => "<div class=\"adapter-item\">" ++ esc l ++ "</div>"))
                    ++ "</div>")],
            found := true }
    | none => st
  else st

/-- One block of the Windows video-controller fallback. -/
def winVideoHtml (g : WinVideoRec) : String :=
  let name := g.name.getD "N/A"
  make_sub ("GPU: " ++ name)
    (make_kv_table
      [["Name", name],
       ["Video Processor", g.videoProcessor.getD "N/A"],
       ["Driver Version", g.driverVersion.getD "N/A"],
       ["Adapter RAM",
        match g.adapterRAM with
        | some r => if r ≠ 0 then fmt_bytes (r : ℚ) "B" else "N/A"
        | none => "N/A"],
       ["Refresh Rate",
        (match g.currentRefreshRate with | some r => toString r | none => "N/A") ++ " Hz"],
       ["Status", g.status.getD "N/A"]])

/-- Windows fallback stage: gated on Windows and `not gpu_found`. -/
def stageWin (e : Env) (st : GpuSt) : GpuSt :=
  if e.os = OS.windows ∧ ¬ st.found then
    let st := { st with inv := st.inv ++ [GpuAdapter.winVideo] }
    match cmdText e.winVideoOut with
    | some _ =>
        match e.winVideoData with
        | some data => { st with parts := st.parts ++ data.map winVideoHtml, found := true }
        | none => st
    | none => st
  else st

/-- macOS fallback stage: gated on Darwin and `not gpu_found`. -/
def stageMac (e : Env) (st : GpuSt) : GpuSt :=
  if e.os = OS.darwin ∧ ¬ st.found then
    let st := { st with inv := st.inv ++ [GpuAdapter.macProfiler] }
    match cmdText e.macDisplayOut with
    | some out =>
        { st with
          parts := st.parts ++ [make_sub "GPU (system_profiler)" ("<pre>" ++ esc out ++ "</pre>")],
          found := true }
    | none => st
  else st

/-- Final degraded note of `collect_gpu_info` when no source succeeded. -/
def stageNote (st : GpuSt) : GpuSt :=
  if ¬ st.found then
    { st with
      parts := st.parts
        ++ ["<p class=\"note\">No GPU information available (install GPUtil for NVIDIA, or ensure drivers are installed)</p>"] }
  else st

/-- The whole `collect_gpu_info` pass with its invocation log. -/
def gpuRun (e : Env) : GpuSt :=
  stageNote (stageMac e (stageWin e (stageLspci e (stageRocm e (stageNvsmi e
    (stageGputil e ⟨[], [], false⟩))))))

/-- `collect_gpu_info`: the joined parts of the staged pass. -/
def collect_gpu_info (e : Env) : String :=
  joinParts (gpuRun e).parts

/-- Whether the GPUtil library enumeration succeeded (imported, no
exception, non-empty GPU list). -/
def gputilSucceeded (e : Env) : Bool :=
  e.gputilPresent && (match e.gputilGpus with
                      | some gpus => !gpus.isEmpty
                      | none => false)

/-- `re.sub(r'p?\d+$', '', dev)`: drop the trailing digit run and at most
one `p` directly before it (the partition suffix of a device name). -/
def stripPartSuffix (s : String) : String :=
  let r := s.data.reverse
  let ds := r.takeWhile Char.isDigit
  if ds.isEmpty then s
  else
    let rest := r.drop ds.length
    let rest := match rest with
      | 'p' :: t => t
      | t => t
    String.mk rest.reverse

/-- One partition block of the Partitions &amp; Usage sub-section:
usage details, or the `NO ACCESS` badge when `disk_usage` raised
`PermissionError`/`OSError`. -/
def diskPartBlock (e : Env) (part : PartRec) : String :=
  match e.diskUsage part.mountpoint with
  | some usage =>
      let used_pct := usage.percent
      let color := if used_pct < 60 then "var(--green)"
                   else if used_pct < 85 then "var(--yellow)" else "var(--red)"
      "<div class=\"iface-block\"><div class=\"iface-header\"><span class=\"iface-name\">"
      ++ esc part.device ++ "</span><span class=\"status-badge status-up\">"
      ++ esc part.fstype ++ "</span><span class=\"iface-meta\">Mount: "
      ++ esc part.mountpoint ++ " · Opts: " ++ esc part.opts ++ "</span></div>"
      ++ "<div style=\"padding:0.8rem;\"><div class=\"metric-row\"><span class=\"metric-label\">Usage ("
      ++ fmt_bytes (usage.used : ℚ) "B" ++ " / " ++ fmt_bytes (usage.total : ℚ) "B"
      ++ ")</span>" ++ progress_bar used_pct color ++ "</div>"
      ++ make_kv_table
          [["Total", fmt_bytes (usage.total : ℚ) "B"],
           ["Used", fmt_bytes (usage.used : ℚ) "B"],
           ["Free", fmt_bytes (usage.free : ℚ) "B"],
           ["Filesystem", pyOrStr part.fstype "N/A"],
           ["Mount Point", part.mountpoint],
           ["Mount Options", pyOrStr part.opts "N/A"]]
      ++ "</div></div>"
  | none =>
      "<div class=\"iface-block\"><div class=\"iface-header\"><span class=\"iface-name\">"
      ++ esc part.device
      ++ "</span><span class=\"status-badge status-down\">NO ACCESS</span><span class=\"iface-meta\">Mount: "
      ++ esc part.mountpoint ++ "</span></div></div>"

/-- The Partitions &amp; Usage sub-section, present when any partition is
mounted. -/
def diskPartsSection (e : Env) : List String :=
  if e.partitions.isEmpty then []
  else [make_sub "Partitions &amp; Usage" (joinParts (e.partitions.map (diskPartBlock e)))]

/-- One row of the disk I/O counters table. -/
def diskIoRow (p : String × IoRec) : List String :=
  [p.1, toString p.2.readCount, toString p.2.writeCount,
   fmt_bytes (p.2.readBytes : ℚ) "B", fmt_bytes (p.2.writeBytes : ℚ) "B",
   toString p.2.readTime ++ " ms", toString p.2.writeTime ++ " ms"]

/-- The I/O Counters sub-section: per-disk counters sorted by device name;
any exception (`none`) is swallowed. -/
def diskIoSection (e : Env) : List String :=
  match e.ioCounters with
  | some io =>
      if io.isEmpty then []
      else [make_sub "I/O Counters"
             (make_table ((pySorted (fun a b => decide (a.1 ≤ b.1)) io).map diskIoRow)
               (some ["Disk", "Reads", "Writes", "Read Bytes", "Written Bytes",
                      "Read Time", "Write Time"]))]
  | none => []

/-- One row of the lsblk physical-disk table. -/
def lsblkRow (d : LsblkDev) : List String :=
  [d.name.getD "N/A", d.size.getD "N/A",
   if d.rota.getD false then "HDD" else "SSD",
   pyStrip (pyOrOpt d.vendor "N/A"), pyStrip (pyOrOpt d.model "N/A"),
   pyStrip (pyOrOpt d.serial "N/A"), (pyOrOpt d.tran "N/A").toUpper]

/-- The collapsible SMART blocks: one per mounted partition whose
(suffix-stripped) base device yields `smartctl` output — the loop iterates
partitions and never deduplicates base devices. -/
def smartBlocks (e : Env) : List String :=
  e.partitions.filterMap (fun part =>
    let base_dev := if e.os = OS.linux then stripPartSuffix part.device else part.device
    let output :=
      match cmdText (e.sudoSmartOut base_dev) with
      | some o => some o
      | none => cmdText (e.smartOut base_dev)
    match output with
    | some out =>
        some ("<details class=\"smart-details\"><summary>" ++ esc base_dev
              ++ "</summary><pre>" ++ esc out ++ "</pre></details>")
    | none => none)

/-- The Linux physical-disk body: lsblk table, then appended SMART blocks;
the pair carries `phys_found`. -/
def diskPhysLinux (e : Env) : String × Bool :=
  let viaLsblk : String × Bool :=
    match cmdText e.lsblkOut with
    | some _ =>
        match e.lsblkData with
        | some devices =>
            let phys_rows := (devices.filter (fun d => d.devType.getD "" = "disk")).map lsblkRow
            if phys_rows.isEmpty then ("", false)
            else (make_table phys_rows
                   (some ["Device", "Size", "Type", "Vendor", "Model", "Serial", "Transport"]),
                  true)
        | none => ("", false)
    | none => ("", false)
  let smart_html := if e.smartctlOnPath then joinParts (smartBlocks e) else ""
  if smart_html ≠ "" then (viaLsblk.1 ++ smart_html, true) else viaLsblk

/-- One row of the Windows physical-disk table. -/
def winDiskRow (d : WinDiskRec) : List String :=
  [d.deviceId.getD "N/A", pyStrip (pyOrOpt d.model "N/A"),
   (match d.size with
    | some s => if s ≠ 0 then fmt_bytes (s : ℚ) "B" else "N/A"
    | none => "N/A"),
   d.mediaType.getD "N/A", d.interfaceType.getD "N/A",
   pyStrip (pyOrOpt d.serialNumber "N/A"),
   (match d.partitions with | some n => toString n | none => "N/A"),
   d.status.getD "N/A"]

/-- The Windows physical-disk body. -/
def diskPhysWin (e : Env) : String × Bool :=
  match cmdText e.winDiskOut with
  | some _ =>
      match e.winDiskData with
      | some data =>
          let phys_rows := data.map winDiskRow
          if phys_rows.isEmpty then ("", false)
          else (make_table phys_rows
                 (some ["Device", "Model", "Size", "Media Type", "Interface",
                        "Serial", "Partitions", "Status"]),
                true)
      | none => ("", false)
  | none => ("", false)

/-- The Physical Disks sub-section: per-OS body, degrading to the static
guidance note when nothing was found. -/
def diskPhysPart (e : Env) : String :=
  let hf : String × Bool :=
    if e.os = OS.linux then diskPhysLinux e
    else if e.os = OS.windows then diskPhysWin e
    else if e.os = OS.darwin then
      match cmdText e.macStorageOut with
      | some out => ("<pre>" ++ esc out ++ "</pre>", true)
      | none => ("", false)
    else ("", false)
  make_sub "Physical Disks"
    (if hf.2 then hf.1
     else "<p class=\"note\">Physical disk details not available (install smartmontools on Linux, or run as admin on Windows)</p>")

/-- `collect_disk_info`: psutil guard, then partitions, I/O counters and
physical disks. -/
def collect_disk_info (e : Env) : String :=
  if ¬ e.psutilPresent then "<p class=\"note\">psutil not installed — install for disk info</p>"
  else joinParts (diskPartsSection e ++ diskIoSection e ++ [diskPhysPart e])

/-- The Host rows of `collect_network_info`; FQDN and default IP lookups
may raise (swallowed, row skipped). -/
def netHostRows (e : Env) : List (List String) :=
  [["Hostname", e.hostname]]
  ++ (match e.fqdn with | some f => [["FQDN", f]] | none => [])
  ++ (match e.defaultIp with | some ip => [["Default IP", ip]] | none => [])

/-- The `duplex_map` of `collect_network_info` with its `N/A` default. -/
def duplexLabel (d : ℤ) : String :=
  if d = 0 then "N/A" else if d = 1 then "Half" else if d = 2 then "Full" else "N/A"

/-- One interface block: status badge, speed/MTU/duplex line and the
per-address table. -/
def ifaceBlock (e : Env) (p : String × List AddrRec) : String :=
  let iface := p.1
  let stat := getAssoc e.netStats iface
  let status := match stat with
    | some s => if s.isup then "UP" else "DOWN"
    | none => "DOWN"
  let speed := match stat with
    | some s => if s.speed ≠ 0 then toString s.speed ++ " Mbps" else "N/A"
    | none => "N/A"
  let mtu := match stat with
    | some s => toString s.mtu
    | none => "N/A"
  let duplex := match stat with
    | some s => duplexLabel s.duplex
    | none => "N/A"
  let status_class := if status = "UP" then "status-up" else "status-down"
  "<div class=\"iface-block\"><div class=\"iface-header\"><span class=\"iface-name\">"
  ++ esc iface ++ "</span><span class=\"status-badge " ++ status_class ++ "\">"
  ++ status ++ "</span><span class=\"iface-meta\">Speed: " ++ esc speed
  ++ " · MTU: " ++ esc mtu ++ " · Duplex: " ++ esc duplex ++ "</span></div>"
  ++ make_table (p.2.map (fun a =>
       [a.family.replace "AddressFamily." "", pyOrStr a.address "N/A",
        pyOrOpt a.netmask "N/A", pyOrOpt a.broadcast "N/A"]))
      (some ["Family", "Address", "Netmask", "Broadcast"])
  ++ "</div>"

/-- One row of the network I/O statistics table. -/
def netIoRow (p : String × NetIoRec) : List String :=
  [p.1, fmt_bytes (p.2.bytesSent : ℚ) "B", fmt_bytes (p.2.bytesRecv : ℚ) "B",
   toString p.2.packetsSent, toString p.2.packetsRecv,
   toString (p.2.errin + p.2.errout), toString (p.2.dropin + p.2.dropout)]

/-- The Active Connections part: state histogram sorted by state name, the
distinct access-denied note on `psutil.AccessDenied`, or nothing when the
histogram is empty. -/
def connParts (e : Env) : List String :=
  match e.connections with
  | Except.ok statuses =>
      let counts := statusCounts statuses
      if counts.isEmpty then []
      else [make_sub "Active Connections"
             (make_table ((pySorted (fun a b => decide (a.1 ≤ b.1)) counts).map
               (fun p => [p.1, toString p.2]))
               (some ["Status", "Count"]))]
  | Except.error _ =>
      [make_sub "Active Connections"
        "<p class=\"note\">Access denied — run as admin/root for connection details</p>"]

/-- `collect_network_info`: host identity, then (with psutil) interfaces,
I/O statistics and the connection histogram. -/
def collect_network_info (e : Env) : String :=
  let hostSub := make_sub "Host" (make_kv_table (netHostRows e))
  if ¬ e.psutilPresent then
    joinParts [hostSub,
      "<p class=\"note\">psutil not installed — install for detailed network info</p>"]
  else
    joinParts ([hostSub,
      make_sub "Interfaces" (joinParts (e.netAddrs.map (ifaceBlock e))),
      make_sub "I/O Statistics"
        (make_table (e.netIo.map netIoRow)
          (some ["Interface", "Sent", "Received", "Pkts Sent", "Pkts Recv", "Errors", "Drops"]))]
      ++ connParts e)

/-- The missing optional packages recorded by `main`. -/
def missingOf (e : Env) : List String :=
  (if ¬ e.psutilPresent then ["psutil"] else [])
  ++ (if ¬ e.cpuinfoPresent then ["py-cpuinfo"] else [])
  ++ (if ¬ e.gputilPresent then ["GPUtil"] else [])

/-- The warning banner `main` renders for missing packages. -/
def missingBanner (e : Env) : String :=
  let missing := missingOf e
  if missing.isEmpty then ""
  else
    "<div class=\"missing-banner\">⚠ Optional packages not installed: "
    ++ String.intercalate ", " (missing.map (fun p => "<code>" ++ p ++ "</code>"))
    ++ ". Install with: <code>pip install " ++ String.intercalate " " missing
    ++ "</code></div>"

/-- The `content` accumulation of `main`: the six domain cards in source
order. -/
def collectContent (e : Env) : String :=
  make_card "System Overview" "🖥️" (collect_system_summary e) "system"
  ++ make_card "CPU" "⚡" (collect_cpu_info e) "cpu"
  ++ make_card "Memory" "🧠" (collect_memory_info e) "memory"
  ++ make_card "GPU" "🎮" (collect_gpu_info e) "gpu"
  ++ make_card "Disks" "💾" (collect_disk_info e) "disks"
  ++ make_card "Network" "🌐" (collect_network_info e) "network"

/-- The report model `main` assembles and hands to the HTML template:
host identity, timestamp, missing-capability set and banner, and the
concatenated domain content. -/
structure ReportModel where
  hostname : String
  timestamp : String
  osName : String
  missing : List String
  banner : String
  content : String

/-- `main`'s report assembly for one run at the given timestamp. -/
def buildReport (e : Env) (timestamp : String) : ReportModel :=
  { hostname := e.hostname
    timestamp := timestamp
    osName := e.unameSystem ++ " " ++ e.unameRelease
    missing := missingOf e
    banner := missingBanner e
    content := collectContent e }

/-- An environment with nothing installed, nothing on PATH and every
external command failing: the fully degraded run. -/
def env0 : Env :=
  { os := OS.other
    psutilPresent := false
    cpuinfoPresent := false
    gputilPresent := false
    unameSystem := "TestOS"
    unameRelease := "1.0"
    unameVersion := "v1"
    unameMachine := "x86_64"
    unameNode := "node"
    pythonVersion := "3.12.0"
    bootTimeStr := "2026-01-01 00:00:00"
    processor := "cpu0"
    cpuinfoData :=
      { brand := none, vendor := none, family := none, modelNum := none,
        stepping := none, archStringRaw := none, arch := none,
        hzAdvertised := none, hzActual := none, l2 := none, l3 := none, flags := [] }
    physCores := none
    logCores := none
    cpuFreq := none
    overallCpu := 0
    perCpu := []
    hasSensorsTemps := false
    sensorsTemps := []
    sensorsCmdOut := CmdOutcome.notFound
    winTempOut := CmdOutcome.notFound
    winTempData := none
    vm := { total := 0, available := 0, used := 0, percent := 0, cached := none, buffers := none }
    swap := { total := 0, used := 0, percent := 0 }
    sudoDmidecodeOut := CmdOutcome.notFound
    dmidecodeOut := CmdOutcome.notFound
    winMemOut := CmdOutcome.notFound
    winMemData := none
    macMemOut := CmdOutcome.notFound
    gputilGpus := none
    nvidiaSmiOnPath := false
    nvidiaSmiOut := CmdOutcome.notFound
    rocmOnPath := false
    rocmOut := CmdOutcome.notFound
    lspciOut := CmdOutcome.notFound
    winVideoOut := CmdOutcome.notFound
    winVideoData := none
    macDisplayOut := CmdOutcome.notFound
    partitions := []
    diskUsage := fun _ => none
    ioCounters := none
    lsblkOut := CmdOutcome.notFound
    lsblkData := none
    smartctlOnPath := false
    sudoSmartOut := fun _ => CmdOutcome.notFound
    smartOut := fun _ => CmdOutcome.notFound
    winDiskOut := CmdOutcome.notFound
    winDiskData := none
    macStorageOut := CmdOutcome.notFound
    hostname := "host"
    fqdn := none
    defaultIp := none
    netAddrs := []
    netStats := []
    netIo := []
    connections := Except.ok [] }

/-- Every adapter of every domain unavailable: the optional libraries are
absent, no tool is on PATH, and every external command fails. -/
def allUnavailable (e : Env) : Prop :=
  e.psutilPresent = false ∧ e.cpuinfoPresent = false ∧ e.gputilPresent = false ∧
  e.nvidiaSmiOnPath = false ∧ e.rocmOnPath = false ∧ e.smartctlOnPath = false ∧
  e.sensorsCmdOut = CmdOutcome.notFound ∧ e.winTempOut = CmdOutcome.notFound ∧
  e.sudoDmidecodeOut = CmdOutcome.notFound ∧ e.dmidecodeOut = CmdOutcome.notFound ∧
  e.winMemOut = CmdOutcome.notFound ∧ e.macMemOut = CmdOutcome.notFound ∧
  e.nvidiaSmiOut = CmdOutcome.notFound ∧ e.rocmOut = CmdOutcome.notFound ∧
  e.lspciOut = CmdOutcome.notFound ∧ e.winVideoOut = CmdOutcome.notFound ∧
  e.macDisplayOut = CmdOutcome.notFound ∧ e.lsblkOut = CmdOutcome.notFound ∧
  e.winDiskOut = CmdOutcome.notFound ∧ e.macStorageOut = CmdOutcome.notFound ∧
  e.gputilGpus = none

/-- A single NVIDIA GPU record as GPUtil would report it. -/
def gpu0 : GpuRec :=
  { gid := 0
    name := "GeForce RTX"
    driver := "555.0"
    memoryTotal := 8192
    memoryUsed := 1024
    memoryFree := 7168
    temperature := 66
    load := 0.25
    memoryUtil := 0.125 }

/-- A Linux run where the GPUtil library enumeration succeeds while
`rocm-smi` is on PATH and `lspci` reports a display adapter. -/
def envC1 : Env :=
  { env0 with
    os := OS.linux
    gputilPresent := true
    gputilGpus := some [gpu0]
    nvidiaSmiOnPath := true
    rocmOnPath := true
    rocmOut := CmdOutcome.completed 0 "rocm data"
    lspciOut := CmdOutcome.completed 0 "00:02.0 VGA compatible controller: Intel" }

/-- A Linux run with two mounted partitions of the same disk and a working
`smartctl` for the shared base device. -/
def envS : Env :=
  { env0 with
    os := OS.linux
    psutilPresent := true
    smartctlOnPath := true
    partitions :=
      [{ device := "/dev/sda1", mountpoint := "/", fstype := "ext4", opts := "rw" },
       { device := "/dev/sda2", mountpoint := "/home", fstype := "ext4", opts := "rw" }]
    sudoSmartOut := fun d =>
      if d = "/dev/sda" then CmdOutcome.completed 0 "SMART overall: PASSED"
      else CmdOutcome.notFound }

/-- A run with psutil present (used to exercise the network collector). -/
def envPs : Env :=
  { env0 with psutilPresent := true }

/-- A Linux run where everything else is unavailable. -/
def envL : Env :=
  { env0 with os := OS.linux }

/-- Number of `<` characters the fixed `make_table` skeleton contributes
for the header row: `<thead><tr>`, one `<th>`/`</th>` pair per header, and
`</tr></thead>` — none when the headers argument is falsy. -/
def mtHeaderTags (headers : Option (List String)) : ℕ :=
  match headers with
  | some hs => if hs.isEmpty then 0 else 4 + 2 * hs.length
  | none => 0

/-- Number of `<` characters the fixed `make_table` skeleton contributes
for the body rows: `<tr>`/`</tr>` plus one `<td>`/`</td>` pair per cell. -/
def mtRowTags (rows : List (List String)) : ℕ :=
  (rows.map (fun r => 2 + 2 * r.length)).sum

theorem str_len_zero (t : String) (h : t.length = 0) : t = "" := by
  cases t with
  | mk d =>
    cases d with
    | nil => rfl
    | cons a l => simp [String.length] at h

theorem str_append_ne_right (s t : String) (h : t ≠ "") : s ++ t ≠ "" := by
  intro hc
  apply h
  have hl : s.length + t.length = 0 := by
    simpa [String.length_append] using congrArg String.length hc
  exact str_len_zero t (by omega)

theorem str_append_ne_left (s t : String) (h : s ≠ "") : s ++ t ≠ "" := by
  intro hc
  apply h
  have hl : s.length + t.length = 0 := by
    simpa [String.length_append] using congrArg String.length hc
  exact str_len_zero s (by omega)

theorem make_sub_ne (t c : String) : make_sub t c ≠ "" := by
  unfold make_sub
  exact str_append_ne_right _ _ (by decide)

theorem make_kv_table_ne (rows : List (List String)) : make_kv_table rows ≠ "" := by
  unfold make_kv_table
  exact str_append_ne_right _ _ (by decide)

theorem joinParts_append (l₁ l₂ : List String) :
    joinParts (l₁ ++ l₂) = joinParts l₁ ++ joinParts l₂ := by
  induction l₁ with
  | nil =>
      show joinParts l₂ = "" ++ joinParts l₂
      cases h : joinParts l₂ with
      | mk d => rfl
  | cons p ps ih => simp [joinParts, ih, String.append_assoc]

theorem joinParts_singleton (s : String) : joinParts [s] = s := by
  simp [joinParts, String.append_empty]

/-- C2 counterexample: the claim says an input of `-5` renders as `0.0` in
the produced progress-metric markup, i.e. the markup equals the
fully-clamped rendering; but `progress_bar` interpolates the raw value into
the textual label, so the markup for `-5` carries the label `-5.0%`. -/
theorem progress_bar_minus5_label_raw :
    progress_bar (-5) "var(--accent)" ≠ progress_bar_clamped_label (-5) "var(--accent)"
    ∧ progress_bar (-5) "var(--accent)" =
      "<div class=\"progress-bar\"><div class=\"progress-fill\" style=\"width:0.0%;background:var(--accent);\"></div><span class=\"progress-label\">-5.0%</span></div>" := by
  constructor
  · decide
  · decide

/-- C2 (amended): the bar-fill width of every progress-metric rendering is
clamped to [0,100] before display — an input of `-5` yields width `0.0%`
and an input of `150` yields width `100.0%` — while the textual label
interpolates the unclamped input value. -/
theorem progress_bar_clamps_width (p : ℚ) (c : String) :
    progress_bar p c =
      "<div class=\"progress-bar\"><div class=\"progress-fill\" style=\"width:"
      ++ pyFmt 1 (max 0 (min 100 p)) ++ "%;background:" ++ c
      ++ ";\"></div><span class=\"progress-label\">" ++ pyFmt 1 p ++ "%</span></div>"
    ∧ (0 : ℚ) ≤ max 0 (min 100 p) ∧ max 0 (min 100 p) ≤ 100
    ∧ (p < 0 → pyFmt 1 (max 0 (min 100 p)) = "0.0")
    ∧ (100 < p → pyFmt 1 (max 0 (min 100 p)) = "100.0") := by
  refine ⟨rfl, le_max_left _ _, max_le (by norm_num) (min_le_left _ _), ?_, ?_⟩
  · intro h
    have h1 : min 100 p = p := min_eq_right (by linarith)
    have h2 : max 0 (min 100 p) = 0 := by rw [h1]; exact max_eq_left (by linarith)
    rw [h2]; decide
  · intro h
    have h1 : min 100 p = 100 := min_eq_left (by linarith)
    have h2 : max 0 (min 100 p) = (100 : ℚ) := by rw [h1]; norm_num
    rw [h2]; decide

theorem progress_bar_clamps_width_witness :
    pyFmt 1 (max 0 (min 100 (-5 : ℚ))) = "0.0"
    ∧ pyFmt 1 (max 0 (min 100 (150 : ℚ))) = "100.0" :=
  ⟨(progress_bar_clamps_width (-5) "var(--accent)").2.2.2.1 (by norm_num),
   (progress_bar_clamps_width 150 "var(--accent)").2.2.2.2 (by norm_num)⟩

/-- C4: `runCmd` classifies every external-tool invocation: a non-zero
exit code, a missing executable, a timeout, or any other OS error all
yield `None` with no exception propagating, and exit code 0 yields the
captured (stripped) standard output. -/
theorem runCmd_classification (code : ℤ) (out : String) :
    (code ≠ 0 → runCmd (CmdOutcome.completed code out) = none)
    ∧ runCmd CmdOutcome.notFound = none
    ∧ runCmd CmdOutcome.timedOut = none
    ∧ runCmd CmdOutcome.osError = none
    ∧ runCmd (CmdOutcome.completed 0 out) = some (pyStrip out) := by
  refine ⟨fun h => ?_, rfl, rfl, rfl, rfl⟩
  simp [runCmd, h]

theorem runCmd_classification_witness :
    runCmd (CmdOutcome.completed 1 " err ") = none
    ∧ runCmd (CmdOutcome.completed 0 "  ok  ") = some "ok" := by
  constructor
  · exact (runCmd_classification 1 " err ").1 (by decide)
  · rw [(runCmd_classification 0 "  ok  ").2.2.2.2]
    decide

/-- C6: the SMBIOS memory-type mapping of the module inventory: codes
20, 21, 22, 24, 26, 34 map to DDR, DDR2, DDR2, DDR3, DDR4, DDR5, and every
other code N renders as `Type N`. -/
theorem memTypeLabel_mapping :
    memTypeLabel 20 = "DDR" ∧ memTypeLabel 21 = "DDR2" ∧ memTypeLabel 22 = "DDR2"
    ∧ memTypeLabel 24 = "DDR3" ∧ memTypeLabel 26 = "DDR4" ∧ memTypeLabel 34 = "DDR5"
    ∧ ∀ n : ℤ, n ∉ ([20, 21, 22, 24, 26, 34] : List ℤ) →
        memTypeLabel n = "Type " ++ toString n := by
  refine ⟨by decide, by decide, by decide, by decide, by decide, by decide, ?_⟩
  intro n h
  simp only [List.mem_cons, List.not_mem_nil, or_false, not_or] at h
  obtain ⟨h1, h2, h3, h4, h5, h6⟩ := h
  simp [memTypeLabel, h1, h2, h3, h4, h5, h6]

theorem memTypeLabel_mapping_witness : memTypeLabel 99 = "Type 99" := by
  rw [memTypeLabel_mapping.2.2.2.2.2.2 99 (by decide)]
  decide

/-- C8: the SMART dump loop iterates the mounted partitions and emits one
collapsible block per partition whose suffix-stripped base device yields
smartctl output — with two mounted partitions of `/dev/sda` it emits two
identical blocks for the single base device `/dev/sda`, although the
suffix-stripping (and the code's own comment) aim at one block per base
device. -/
theorem smartBlocks_duplicate_per_partition :
    stripPartSuffix "/dev/sda1" = "/dev/sda"
    ∧ stripPartSuffix "/dev/sda2" = "/dev/sda"
    ∧ smartBlocks envS =
        ["<details class=\"smart-details\"><summary>/dev/sda</summary><pre>SMART overall: PASSED</pre></details>",
         "<details class=\"smart-details\"><summary>/dev/sda</summary><pre>SMART overall: PASSED</pre></details>"]
    ∧ (smartBlocks envS).length = 2 := by
  refine ⟨by decide, by decide, by decide, by decide⟩

/-- C9: the report model assembled by `main` from one environment of
adapter responses is identical across runs up to the timestamp argument:
content, missing-capability set, banner, OS name and hostname do not
depend on it. -/
theorem report_model_timestamp_independent (e : Env) (t₁ t₂ : String) :
    (buildReport e t₁).content = (buildReport e t₂).content
    ∧ (buildReport e t₁).missing = (buildReport e t₂).missing
    ∧ (buildReport e t₁).banner = (buildReport e t₂).banner
    ∧ (buildReport e t₁).osName = (buildReport e t₂).osName
    ∧ (buildReport e t₁).hostname = (buildReport e t₂).hostname :=
  ⟨rfl, rfl, rfl, rfl, rfl⟩

theorem stageGputil_success (e : Env) (h : gputilSucceeded e = true) :
    (stageGputil e ⟨[], [], false⟩).inv = [GpuAdapter.gputil]
    ∧ (stageGputil e ⟨[], [], false⟩).found = true := by
  unfold gputilSucceeded at h
  rw [Bool.and_eq_true] at h
  obtain ⟨hp, hm⟩ := h
  cases hg : e.gputilGpus with
  | none => rw [hg] at hm; simp at hm
  | some gpus =>
      rw [hg] at hm
      simp only [Bool.not_eq_true'] at hm
      simp [stageGputil, hp, hg, hm]

theorem stageNvsmi_found (e : Env) (st : GpuSt) (h : st.found = true) :
    stageNvsmi e st = st := by
  simp [stageNvsmi, h]

theorem stageRocm_inv (e : Env) (st : GpuSt) :
    (stageRocm e st).inv = st.inv ++ (if e.rocmOnPath then [GpuAdapter.rocmSmi] else []) := by
  unfold stageRocm
  by_cases hr : e.rocmOnPath = true
  · simp only [hr, if_true]
    cases cmdText e.rocmOut <;> simp
  · simp only [Bool.not_eq_true] at hr
    simp [hr]

theorem stageRocm_found (e : Env) (st : GpuSt) (h : st.found = true) :
    (stageRocm e st).found = true := by
  unfold stageRocm
  by_cases hr : e.rocmOnPath = true
  · simp only [hr, if_true]
    cases cmdText e.rocmOut <;> simp [h]
  · simp only [Bool.not_eq_true] at hr
    simp [hr, h]

theorem stageLspci_inv (e : Env) (st : GpuSt) :
    (stageLspci e st).inv = st.inv ++ (if e.os = OS.linux then [GpuAdapter.lspci] else []) := by
  unfold stageLspci
  by_cases ho : e.os = OS.linux
  · simp only [ho, if_true]
    cases cmdText e.lspciOut with
    | none => simp
    | some out =>
        by_cases hv : ((pySplitlines out).filter
            (fun l => pyIn "VGA" l || pyIn "3D" l || pyIn "Display" l)).isEmpty
        · simp [hv]
        · simp [hv]
  · simp [ho]

theorem stageLspci_found (e : Env) (st : GpuSt) (h : st.found = true) :
    (stageLspci e st).found = true := by
  unfold stageLspci
  by_cases ho : e.os = OS.linux
  · simp only [ho, if_true]
    cases cmdText e.lspciOut with
    | none => simp [h]
    | some out =>
        by_cases hv : ((pySplitlines out).filter
            (fun l => pyIn "VGA" l || pyIn "3D" l || pyIn "Display" l)).isEmpty
        · simp [hv, h]
        · simp [hv]
  · simp [ho, h]

theorem stageWin_skip (e : Env) (st : GpuSt) (h : st.found = true) :
    stageWin e st = st := by
  simp [stageWin, h]

theorem stageMac_skip (e : Env) (st : GpuSt) (h : st.found = true) :
    stageMac e st = st := by
  simp [stageMac, h]

theorem stageNote_inv (st : GpuSt) : (stageNote st).inv = st.inv := by
  unfold stageNote
  split <;> simp

/-- C1 counterexample: on a Linux host where the GPUtil (NVIDIA library)
enumeration succeeds, the rocm-smi candidate and the generic lspci
display-adapter candidate are still invoked, and both contribute sections
to the GPU snapshot — the claim says every remaining candidate after the
first success is never invoked and contributes no data. -/
theorem gpu_rocm_lspci_still_invoked :
    gputilSucceeded envC1 = true
    ∧ (gpuRun envC1).inv = [GpuAdapter.gputil, GpuAdapter.rocmSmi, GpuAdapter.lspci]
    ∧ (gpuRun envC1).parts.length = 3
    ∧ (gpuRun envC1).parts.getD 1 "" =
        make_sub "AMD GPU (rocm-smi)" ("<pre>" ++ esc (pyTake "rocm data" 4000) ++ "</pre>")
    ∧ (gpuRun envC1).parts.getD 2 "" =
        make_sub "Detected Display Adapters"
          "<div class=\"adapter-list\"><div class=\"adapter-item\">00:02.0 VGA compatible controller: Intel</div></div>" := by
  refine ⟨by decide, by decide, by decide, ?_, ?_⟩
  · decide
  · set_option maxRecDepth 8000 in decide

/-- C1 (amended): the vendor-ordered NVIDIA sub-chain and the OS fallbacks
are first-success — once the NVIDIA library enumeration succeeds, the
nvidia-smi candidate and the Windows and macOS generic fallbacks are never
invoked — but the rocm-smi candidate is invoked exactly when the tool is
on PATH and the generic display-adapter listing exactly when the OS is
Linux, regardless of the earlier success, and they may contribute
additional sections. -/
theorem gpu_chain_amended (e : Env) (h : gputilSucceeded e = true) :
    GpuAdapter.nvidiaSmi ∉ (gpuRun e).inv
    ∧ GpuAdapter.winVideo ∉ (gpuRun e).inv
    ∧ GpuAdapter.macProfiler ∉ (gpuRun e).inv
    ∧ (GpuAdapter.rocmSmi ∈ (gpuRun e).inv ↔ e.rocmOnPath = true)
    ∧ (GpuAdapter.lspci ∈ (gpuRun e).inv ↔ e.os = OS.linux) := by
  obtain ⟨hinv1, hf1⟩ := stageGputil_success e h
  have h2 : stageNvsmi e (stageGputil e ⟨[], [], false⟩) = stageGputil e ⟨[], [], false⟩ :=
    stageNvsmi_found e _ hf1
  have h3f : (stageRocm e (stageGputil e ⟨[], [], false⟩)).found = true :=
    stageRocm_found e _ hf1
  have h4f : (stageLspci e (stageRocm e (stageGputil e ⟨[], [], false⟩))).found = true :=
    stageLspci_found e _ h3f
  have hfinal : (gpuRun e).inv =
      [GpuAdapter.gputil]
      ++ (if e.rocmOnPath then [GpuAdapter.rocmSmi] else [])
      ++ (if e.os = OS.linux then [GpuAdapter.lspci] else []) := by
    unfold gpuRun
    rw [h2, stageNote_inv, stageMac_skip e _ (by rw [stageWin_skip e _ h4f]; exact h4f),
        stageWin_skip e _ h4f, stageLspci_inv, stageRocm_inv, hinv1]
  rw [hfinal] at *
  by_cases hr : e.rocmOnPath = true <;> by_cases ho : e.os = OS.linux <;>
    simp [hr, ho]

theorem gpu_chain_amended_witness :
    gputilSucceeded envC1 = true ∧ GpuAdapter.nvidiaSmi ∉ (gpuRun envC1).inv := by
  have h : gputilSucceeded envC1 = true := by decide
  exact ⟨h, (gpu_chain_amended envC1 h).1⟩

theorem escChar_markup_free (c : Char) :
    (escChar c).count '<' = 0 ∧ (escChar c).count '>' = 0
    ∧ (escChar c).count '"' = 0 ∧ (escChar c).count '\'' = 0 := by
  unfold escChar
  by_cases h1 : c = '&'
  · rw [if_pos h1]; decide
  rw [if_neg h1]
  by_cases h2 : c = '<'
  · rw [if_pos h2]; decide
  rw [if_neg h2]
  by_cases h3 : c = '>'
  · rw [if_pos h3]; decide
  rw [if_neg h3]
  by_cases h4 : c = '"'
  · rw [if_pos h4]; decide
  rw [if_neg h4]
  by_cases h5 : c = '\''
  · rw [if_pos h5]; decide
  rw [if_neg h5]
  refine ⟨?_, ?_, ?_, ?_⟩ <;> simp [List.count_cons, List.count_nil, h2, h3, h4, h5]

theorem flatMapEscChar_count (l : List Char) :
    (l.flatMap escChar).count '<' = 0 ∧ (l.flatMap escChar).count '>' = 0
    ∧ (l.flatMap escChar).count '"' = 0 ∧ (l.flatMap escChar).count '\'' = 0 := by
  induction l with
  | nil => decide
  | cons c cs ih =>
      obtain ⟨i1, i2, i3, i4⟩ := ih
      obtain ⟨e1, e2, e3, e4⟩ := escChar_markup_free c
      refine ⟨?_, ?_, ?_, ?_⟩ <;>
        simp [List.flatMap_cons, List.count_append, i1, i2, i3, i4, e1, e2, e3, e4]

theorem esc_markup_free (s : String) :
    (esc s).data.count '<' = 0 ∧ (esc s).data.count '>' = 0
    ∧ (esc s).data.count '"' = 0 ∧ (esc s).data.count '\'' = 0 :=
  flatMapEscChar_count s.data

theorem joinParts_count (m : Char) (l : List String) :
    (joinParts l).data.count m = (l.map (fun s => s.data.count m)).sum := by
  induction l with
  | nil => rfl
  | cons s ss ih => simp [joinParts, String.data_append, List.count_append, ih]

theorem sum_map_const_two {α : Type} (l : List α) :
    (l.map (fun _ => (2 : ℕ))).sum = 2 * l.length := by
  induction l with
  | nil => rfl
  | cons a t ih => simp [ih]; ring

theorem th_cell_count (a : String) :
    ("<th>" ++ esc a ++ "</th>").data.count '<' = 2 := by
  rw [String.data_append, String.data_append, List.count_append, List.count_append,
      (esc_markup_free a).1]
  decide

theorem td_cell_count (a : String) :
    ("<td>" ++ esc a ++ "</td>").data.count '<' = 2 := by
  rw [String.data_append, String.data_append, List.count_append, List.count_append,
      (esc_markup_free a).1]
  decide

theorem tr_row_count (row : List String) :
    ("<tr>" ++ joinParts (row.map (fun cell => "<td>" ++ esc cell ++ "</td>")) ++ "</tr>\n").data.count '<'
      = 2 + 2 * row.length := by
  rw [String.data_append, String.data_append, List.count_append, List.count_append,
      joinParts_count]
  have hcells : (row.map (fun cell => "<td>" ++ esc cell ++ "</td>")).map
      (fun s => s.data.count '<') = row.map (fun _ => (2 : ℕ)) := by
    rw [List.map_map]
    exact List.map_congr_left (fun a _ => td_cell_count a)
  rw [hcells, sum_map_const_two]
  have h1 : ("<tr>" : String).data.count '<' = 1 := by decide
  have h2 : ("</tr>\n" : String).data.count '<' = 1 := by decide
  omega

/-- C5: adapter payload text is neutralised by `esc` — its escaped form
contains no raw `<`, `>`, `"` or `'` characters — and consequently the
number of `<` markup characters in any `make_table` rendering is a
function of the table's shape alone (header and row lengths), never of the
payload text: no payload can appear as live markup. -/
theorem esc_neutral_make_table_shape :
    (∀ s : String,
      (esc s).data.count '<' = 0 ∧ (esc s).data.count '>' = 0
      ∧ (esc s).data.count '"' = 0 ∧ (esc s).data.count '\'' = 0)
    ∧ (∀ (rows : List (List String)) (headers : Option (List String)),
        (make_table rows headers).data.count '<' = 4 + mtHeaderTags headers + mtRowTags rows) := by
  refine ⟨esc_markup_free, ?_⟩
  intro rows headers
  unfold make_table
  simp only [String.data_append, List.count_append]
  have hhead : (match headers with
      | some hs =>
          if hs.isEmpty then ""
          else
            "<thead><tr>"
            ++ joinParts (hs.map (fun hdr => "<th>" ++ esc hdr ++ "</th>"))
            ++ "</tr></thead>\n"
      | none => "").data.count '<' = mtHeaderTags headers := by
    cases headers with
    | none => decide
    | some hs =>
        cases hh : hs.isEmpty with
        | true => simp [hh, mtHeaderTags]
        | false =>
          simp only [hh, Bool.false_eq_true, if_false]
          rw [String.data_append, String.data_append, List.count_append, List.count_append,
              joinParts_count]
          have hcells : (hs.map (fun hdr => "<th>" ++ esc hdr ++ "</th>")).map
              (fun s => s.data.count '<') = hs.map (fun _ => (2 : ℕ)) := by
            rw [List.map_map]
            exact List.map_congr_left (fun a _ => th_cell_count a)
          rw [hcells, sum_map_const_two]
          simp only [mtHeaderTags, hh, Bool.false_eq_true, if_false]
          simp [List.count_cons, List.count_nil]
          omega
  have hrows : (joinParts (rows.map (fun row =>
      "<tr>"
      ++ joinParts (row.map (fun cell => "<td>" ++ esc cell ++ "</td>"))
      ++ "</tr>\n"))).data.count '<' = mtRowTags rows := by
    rw [joinParts_count]
    have hmapped : (rows.map (fun row =>
        "<tr>" ++ joinParts (row.map (fun cell => "<td>" ++ esc cell ++ "</td>")) ++ "</tr>\n")).map
        (fun s => s.data.count '<') = rows.map (fun r => 2 + 2 * r.length) := by
      rw [List.map_map]
      exact List.map_congr_left (fun r _ => tr_row_count r)
    rw [hmapped]
    rfl
  rw [hhead, hrows]
  simp [List.count_cons, List.count_nil]
  omega

/-- C7: when connection enumeration raises `AccessDenied`, the network
collector appends the distinct elevated-privileges note as its Active
Connections sub-section, and the rest of the snapshot (host, interfaces,
I/O statistics) is exactly what it would have been otherwise. -/
theorem network_access_denied_note (e : Env) (h : e.psutilPresent = true) :
    collect_network_info { e with connections := Except.error () } =
      collect_network_info { e with connections := Except.ok [] }
      ++ make_sub "Active Connections"
          "<p class=\"note\">Access denied — run as admin/root for connection details</p>" := by
  simp [collect_network_info, h, connParts, statusCounts, joinParts_append, joinParts,
    String.append_empty, String.append_assoc]
  rfl

theorem network_access_denied_note_witness :
    collect_network_info { envPs with connections := Except.error () } =
      collect_network_info { envPs with connections := Except.ok [] }
      ++ make_sub "Active Connections"
          "<p class=\"note\">Access denied — run as admin/root for connection details</p>" :=
  network_access_denied_note envPs rfl

theorem all_space_strip (s : String) (h : s.data.all isPySpace = true) : pyStrip s = "" := by
  unfold pyStrip
  have h1 : s.data.dropWhile isPySpace = [] := by
    rw [List.dropWhile_eq_nil_iff]
    intro x hx
    exact (List.all_eq_true.mp h) x hx
  rw [h1]
  rfl

/-- C10: an external command that exits 0 with whitespace-only stdout
makes `runCmd` return the empty string, and the collectors' truthiness
tests treat that exactly like a failed probe — the memory module chain
behaves identically to the case where the command was not found at all,
so the plain-dmidecode fallback is consulted next. -/
theorem blank_stdout_falsy (s : String) (e : Env) (h : s.data.all isPySpace = true) :
    runCmd (CmdOutcome.completed 0 s) = some ""
    ∧ collect_memory_info { e with sudoDmidecodeOut := CmdOutcome.completed 0 s }
      = collect_memory_info { e with sudoDmidecodeOut := CmdOutcome.notFound } := by
  have hs := all_space_strip s h
  have hc : cmdText (CmdOutcome.completed 0 s) = none := by
    simp [cmdText, runCmd, hs]
  refine ⟨by simp [runCmd, hs], ?_⟩
  simp only [collect_memory_info, memModulePart, memModuleLinux, hc, cmdText, runCmd, hs,
    if_true, reduceIte]
  rfl

theorem blank_stdout_falsy_witness :
    runCmd (CmdOutcome.completed 0 " \n\t") = some ""
    ∧ collect_memory_info { envL with sudoDmidecodeOut := CmdOutcome.completed 0 " \n\t" }
      = collect_memory_info { envL with sudoDmidecodeOut := CmdOutcome.notFound } :=
  blank_stdout_falsy " \n\t" envL (by decide)

theorem stageGputil_absent (e : Env) (st : GpuSt) (h : e.gputilPresent = false) :
    stageGputil e st = st := by
  simp [stageGputil, h]

theorem stageNvsmi_absent (e : Env) (st : GpuSt) (h : e.nvidiaSmiOnPath = false) :
    stageNvsmi e st = st := by
  simp [stageNvsmi, h]

theorem stageRocm_absent (e : Env) (st : GpuSt) (h : e.rocmOnPath = false) :
    stageRocm e st = st := by
  simp [stageRocm, h]

theorem stageLspci_failed (e : Env) (st : GpuSt) (h : e.lspciOut = CmdOutcome.notFound) :
    (stageLspci e st).parts = st.parts ∧ (stageLspci e st).found = st.found := by
  unfold stageLspci
  by_cases ho : e.os = OS.linux
  · simp [ho, h, cmdText, runCmd]
  · simp [ho]

theorem stageWin_failed (e : Env) (st : GpuSt) (h : e.winVideoOut = CmdOutcome.notFound) :
    (stageWin e st).parts = st.parts ∧ (stageWin e st).found = st.found := by
  unfold stageWin
  split
  · simp [h, cmdText, runCmd]
  · simp

theorem stageMac_failed (e : Env) (st : GpuSt) (h : e.macDisplayOut = CmdOutcome.notFound) :
    (stageMac e st).parts = st.parts ∧ (stageMac e st).found = st.found := by
  unfold stageMac
  split
  · simp [h, cmdText, runCmd]
  · simp

/-- C3: every domain snapshot is non-empty — the System, CPU, Memory, Disk
and Network collectors return a non-empty snapshot for every environment,
the GPU collector degrades to its static guidance note (hence non-empty)
when every adapter is unavailable — and the assembled report content is
the six domain cards concatenated in the fixed order System, CPU, Memory,
GPU, Disk, Network. -/
theorem snapshots_nonempty_fixed_order :
    (∀ e : Env, collect_system_summary e ≠ "" ∧ collect_cpu_info e ≠ ""
      ∧ collect_memory_info e ≠ "" ∧ collect_disk_info e ≠ "" ∧ collect_network_info e ≠ "")
    ∧ (∀ e : Env, allUnavailable e →
        collect_gpu_info e =
          "<p class=\"note\">No GPU information available (install GPUtil for NVIDIA, or ensure drivers are installed)</p>"
        ∧ collect_gpu_info e ≠ "")
    ∧ (∀ e : Env, collectContent e =
        make_card "System Overview" "🖥️" (collect_system_summary e) "system"
        ++ make_card "CPU" "⚡" (collect_cpu_info e) "cpu"
        ++ make_card "Memory" "🧠" (collect_memory_info e) "memory"
        ++ make_card "GPU" "🎮" (collect_gpu_info e) "gpu"
        ++ make_card "Disks" "💾" (collect_disk_info e) "disks"
        ++ make_card "Network" "🌐" (collect_network_info e) "network") := by
  refine ⟨?_, ?_, fun e => rfl⟩
  · intro e
    refine ⟨?_, ?_, ?_, ?_, ?_⟩
    · exact make_kv_table_ne _
    · exact str_append_ne_left _ _ (make_sub_ne _ _)
    · unfold collect_memory_info
      rw [joinParts_append, joinParts_singleton]
      exact str_append_ne_right _ _ (make_sub_ne _ _)
    · unfold collect_disk_info
      split
      · decide
      · rw [joinParts_append, joinParts_singleton]
        exact str_append_ne_right _ _ (make_sub_ne _ _)
    · simp only [collect_network_info]
      split <;> exact str_append_ne_left _ _ (make_sub_ne _ _)
  · intro e h
    obtain ⟨hps, hcp, hgp, hnv, hro, hsm, _, _, _, _, _, _, _, _, hlsp, hwv, hmac,
      _, _, _, _⟩ := h
    have heq : collect_gpu_info e =
        "<p class=\"note\">No GPU information available (install GPUtil for NVIDIA, or ensure drivers are installed)</p>" := by
      unfold collect_gpu_info gpuRun
      rw [stageGputil_absent e _ hgp, stageNvsmi_absent e _ hnv, stageRocm_absent e _ hro]
      have h4 := stageLspci_failed e ⟨[], [], false⟩ hlsp
      have h5 := stageWin_failed e (stageLspci e ⟨[], [], false⟩) hwv
      have h6 := stageMac_failed e (stageWin e (stageLspci e ⟨[], [], false⟩)) hmac
      have hfound : (stageMac e (stageWin e (stageLspci e ⟨[], [], false⟩))).found = false := by
        rw [h6.2, h5.2, h4.2]
      have hparts : (stageMac e (stageWin e (stageLspci e ⟨[], [], false⟩))).parts = [] := by
        rw [h6.1, h5.1, h4.1]
      unfold stageNote
      rw [hfound, hparts]
      simp [joinParts, String.append_empty]
    exact ⟨heq, by rw [heq]; decide⟩

theorem snapshots_nonempty_fixed_order_witness :
    allUnavailable env0
    ∧ collect_gpu_info env0 =
        "<p class=\"note\">No GPU information available (install GPUtil for NVIDIA, or ensure drivers are installed)</p>"
    ∧ collect_system_summary env0 ≠ "" := by
  have ha : allUnavailable env0 := by unfold allUnavailable; decide
  exact ⟨ha, (snapshots_nonempty_fixed_order.2.1 env0 ha).1,
    (snapshots_nonempty_fixed_order.1 env0).1⟩
